import Mathlib

/-!
Verification of the Hunyuan3D-2 API server (`api_server.py`).

The development shallowly embeds the request-handling core of the server:
`ModelWorker.__init__` / `ModelWorker.generate`, the parameter handling and
per-mode defaulting, the post-processing chain, the `GET /status/{uid}`
endpoint with its base64 round trip, and a small interleaving semantics for
bursts of concurrent submissions against the module-level
`asyncio.Semaphore` (`model_semaphore`).

External collaborators (PIL image decoding, background removal, the
diffusion pipelines, trimesh) are treated as opaque constructors: the
embedding records *which* collaborator is applied to *which* argument, in
*which* order, which is exactly what the claims quantify over.
-/

/-- A PIL image value, tracked symbolically: the result of
`load_image_from_base64`, of the background remover, or of the
text-to-image pipeline. -/
inductive Img where
  | decoded (b64 : String)
  | rembgd (i : Img)
  | t2i (text : String)
deriving DecidableEq, Repr

/-- `BackgroundRemover.__call__` (opaque collaborator). -/
def rembg (i : Img) : Img := Img.rembgd i

/-- `load_image_from_base64` (api_server.py line 143). -/
def load_image_from_base64 (image : String) : Img := Img.decoded image

/-- The value held in `params['image']` after mode selection: a single PIL
image, or the `{front, left, back}` dict built on the multiview path. -/
inductive ProcImage where
  | single (i : Img)
  | views (front left back : Img)
deriving DecidableEq, Repr

/-- Which pipeline `pipeline_to_use` refers to. -/
inductive PipeKind where
  | single
  | multiview
deriving DecidableEq, Repr

/-- The keyword arguments that reach `pipeline_to_use(**params)` after the
defaulting block (api_server.py lines 254-267). -/
structure PipeArgs where
  image : ProcImage
  seed : Nat
  octree_resolution : Nat
  num_inference_steps : Nat
  num_chunks : Option Nat
  mc_algo : Option String
  guidance_scale : Rat
deriving DecidableEq, Repr

/-- A trimesh mesh value, tracked symbolically through loading, generation
and the post-processing chain. -/
inductive Mesh where
  | fromB64 (b64 : String)
  | generated (kind : PipeKind) (args : PipeArgs)
  | floaterRemoved (m : Mesh)
  | degenRemoved (m : Mesh)
  | faceReduced (m : Mesh) (maxFacenum : Nat)
  | textured (m : Mesh) (i : Img)
deriving DecidableEq, Repr

/-- Observable calls made by one `ModelWorker.generate` run, in order. -/
inductive Event where
  | rembgCall
  | t2iCall (text : String)
  | pipelineCall (kind : PipeKind) (args : PipeArgs)
  | floater
  | degenerate
  | faceReduce (maxFacenum : Nat)
  | texPaint
  | exportMesh (uid : String) (ext : String) (m : Mesh)
  | emptyCache
deriving DecidableEq, Repr

/-- Python exceptions raised by `ModelWorker.generate`. -/
inductive Err where
  | valueError (msg : String)
  | attributeError (attr : String)
deriving DecidableEq, Repr

/-- The `{front, left, back}` sub-fields of the `images` request field
(base64 strings, each possibly missing). -/
structure Views where
  front : Option String
  left : Option String
  back : Option String
deriving DecidableEq, Repr

/-- The JSON request dictionary: every field the `generate` code reads.
`none` models an absent key. -/
structure Params where
  multiview : Option Bool
  images : Option Views
  image : Option String
  text : Option String
  mesh : Option String
  seed : Option Nat
  octree_resolution : Option Nat
  num_inference_steps : Option Nat
  num_chunks : Option Nat
  guidance_scale : Option Rat
  texture : Option Bool
  face_count : Option Nat
  type : Option String
deriving DecidableEq, Repr

/-- The empty request body (every key absent). -/
def emptyParams : Params :=
  ⟨none, none, none, none, none, none, none, none, none, none, none, none, none⟩

/-- The state of a `ModelWorker` relevant to `generate`: which optional
pipeline attributes exist on the object. -/
structure ModelWorker where
  pipeline_mv : Bool
  pipeline_tex : Bool
  pipeline_t2i : Bool
deriving DecidableEq, Repr

/-- `ModelWorker.__init__` (api_server.py lines 148-192): `pipeline_mv` is
set iff `enable_multiview`; `pipeline_tex` is set iff `enable_tex`; the
`pipeline_t2i` assignment is commented out (lines 187-190), so that
attribute never exists on the object. -/
def ModelWorker.init (enable_tex : Bool) (enable_multiview : Bool) : ModelWorker :=
  { pipeline_mv := enable_multiview, pipeline_tex := enable_tex, pipeline_t2i := false }

/-- `SAVE_DIR` (api_server.py line 136). -/
def SAVE_DIR : String := "gradio_cache"

/-- Default of the `--limit-model-concurrency` argument (line 513). -/
def limit_model_concurrency_default : Nat := 5

/-- The mode-selection block of `ModelWorker.generate` (api_server.py
lines 209-249): decide multiview / single-image / text, decode and
background-remove the input image(s), pick `pipeline_to_use`; raise
`ValueError` on missing inputs and `AttributeError` on the text path
(`self.pipeline_t2i` is never initialized). -/
def modeSelection (w : ModelWorker) (params : Params) :
    Except Err (ProcImage × PipeKind) × List Event :=
  let is_multiview := params.multiview.getD false
  if is_multiview then
      match params.images with
      | none => (Except.error (Err.valueError "No images provided for multiview generation"), [])
      | some vs =>
        match vs.front with
        | none =>
          (Except.error (Err.valueError "Missing front image for multiview generation"), [])
        | some f =>
          let fi := rembg (load_image_from_base64 f)
          match vs.left with
          | none =>
            (Except.error (Err.valueError "Missing left image for multiview generation"),
              [Event.rembgCall])
          | some l =>
            let li := rembg (load_image_from_base64 l)
            match vs.back with
            | none =>
              (Except.error (Err.valueError "Missing back image for multiview generation"),
                [Event.rembgCall, Event.rembgCall])
            | some b =>
              let bi := rembg (load_image_from_base64 b)
              if w.pipeline_mv then
                (Except.ok (ProcImage.views fi li bi, PipeKind.multiview),
                  [Event.rembgCall, Event.rembgCall, Event.rembgCall])
              else
                (Except.error
                  (Err.valueError "Multiview pipeline not loaded. Enable multiview mode."),
                  [Event.rembgCall, Event.rembgCall, Event.rembgCall])
    else
      match params.image with
      | some s =>
        (Except.ok (ProcImage.single (rembg (load_image_from_base64 s)), PipeKind.single),
          [Event.rembgCall])
      | none =>
        match params.text with
        | some t =>
          if w.pipeline_t2i then
            (Except.ok (ProcImage.single (rembg (Img.t2i t)), PipeKind.single),
              [Event.t2iCall t, Event.rembgCall])
          else
            (Except.error (Err.attributeError "pipeline_t2i"), [])
        | none => (Except.error (Err.valueError "No input image or text provided"), [])

/-- The mesh-acquisition block of `ModelWorker.generate` (api_server.py
lines 251-272): if a `mesh` field is present, decode it with trimesh and
skip generation; otherwise seed the generator (default 1234), apply the
mode-specific defaults and invoke `pipeline_to_use(**params)`. -/
def meshSource (kind : PipeKind) (pimg : ProcImage) (params : Params) :
    Mesh × List Event :=
  let is_multiview := params.multiview.getD false
  match params.mesh with
  | some ms => (Mesh.fromB64 ms, [])
  | none =>
    let seed := params.seed.getD 1234
    let args : PipeArgs :=
      if is_multiview then
        { image := pimg, seed := seed,
          octree_resolution := params.octree_resolution.getD 380,
          num_inference_steps := params.num_inference_steps.getD 50,
          num_chunks := some (params.num_chunks.getD 20000),
          mc_algo := none,
          guidance_scale := params.guidance_scale.getD 5 }
      else
        { image := pimg, seed := seed,
          octree_resolution := params.octree_resolution.getD 128,
          num_inference_steps := params.num_inference_steps.getD 5,
          num_chunks := params.num_chunks,
          mc_algo := some "mc",
          guidance_scale := params.guidance_scale.getD 5 }
    (Mesh.generated kind args, [Event.pipelineCall kind args])

/-- The post-processing block of `ModelWorker.generate` (api_server.py
lines 274-281): when `texture` is requested, run floater removal,
degenerate-face removal, face reduction (default max 40000 faces), then
texture painting with the (front) image; accessing the absent
`self.pipeline_tex` attribute raises `AttributeError`. -/
def postProcess (w : ModelWorker) (pimg : ProcImage) (params : Params) (mesh0 : Mesh) :
    Except Err Mesh × List Event :=
  if params.texture.getD false then
    let m1 := Mesh.floaterRemoved mesh0
    let m2 := Mesh.degenRemoved m1
    let fc := params.face_count.getD 40000
    let m3 := Mesh.faceReduced m2 fc
    let texture_image : Img :=
      match pimg with
      | ProcImage.views f _ _ => f
      | ProcImage.single i => i
    if w.pipeline_tex then
      (Except.ok (Mesh.textured m3 texture_image),
        [Event.floater, Event.degenerate, Event.faceReduce fc, Event.texPaint])
    else
      (Except.error (Err.attributeError "pipeline_tex"),
        [Event.floater, Event.degenerate, Event.faceReduce fc])
  else
    (Except.ok mesh0, [])

/-- The export block of `ModelWorker.generate` (api_server.py lines
283-291): export the mesh to `SAVE_DIR/{uid}.{type}` (type defaults to
`glb`) and clear the device cache. -/
def exportStep (uid : String) (params : Params) (meshF : Mesh) :
    (String × String) × List Event :=
  let ty := params.type.getD "glb"
  let save_path := SAVE_DIR ++ "/" ++ uid ++ "." ++ ty
  ((save_path, uid), [Event.exportMesh uid ty meshF, Event.emptyCache])

/-- `ModelWorker.generate` (api_server.py lines 207-291), returning the
result of the Python function (or the exception it raises) together with
the ordered trace of collaborator calls it made before returning or
raising. -/
def ModelWorker.generate (w : ModelWorker) (uid : String) (params : Params) :
    Except Err (String × String) × List Event :=
  match modeSelection w params with
  | (Except.error e, es) => (Except.error e, es)
  | (Except.ok (pimg, kind), es1) =>
    let mes := meshSource kind pimg params
    let mesh0 := mes.fst
    let es2 := mes.snd
    match postProcess w pimg params mesh0 with
    | (Except.error e, es3) => (Except.error e, es1 ++ es2 ++ es3)
    | (Except.ok meshF, es3) =>
      let ex := exportStep uid params meshF
      (Except.ok ex.fst, es1 ++ es2 ++ es3 ++ ex.snd)

/-- The request dictionary built by the `POST /generate-multiview-form`
handler (api_server.py lines 434-451) when the client supplies only the
three images, so every `Form(...)` default applies (seed=12345,
octree_resolution=380, num_inference_steps=50, num_chunks=20000,
guidance_scale=5.0, texture=False, face_count=40000). -/
def generate_multiview_form_params (front_b64 left_b64 back_b64 : String) : Params :=
  { emptyParams with
    images := some ⟨some front_b64, some left_b64, some back_b64⟩,
    multiview := some true,
    seed := some 12345,
    octree_resolution := some 380,
    num_inference_steps := some 50,
    num_chunks := some 20000,
    guidance_scale := some 5,
    texture := some false,
    face_count := some 40000 }

/-- Is an event an invocation of the Model Pipeline Adapter? -/
def isPipelineCall : Event → Bool
  | Event.pipelineCall _ _ => true
  | _ => false

/-- The adapter invocations contained in a trace. -/
def pipelineCalls (es : List Event) : List Event := es.filter isPipelineCall

/-- The arguments of the first adapter invocation in a trace, if any. -/
def firstPipeArgs (es : List Event) : Option PipeArgs :=
  es.findSome? fun e =>
    match e with
    | Event.pipelineCall _ a => some a
    | _ => none

/-- Does a result correspond to the spec's InvalidInput kind (a Python
`ValueError`)? -/
def isInvalidInput (r : Except Err (String × String)) : Bool :=
  match r with
  | Except.error (Err.valueError _) => true
  | _ => false

/-- Is an event one of the four post-processing steps? -/
def isPostProc : Event → Bool
  | Event.floater => true
  | Event.degenerate => true
  | Event.faceReduce _ => true
  | Event.texPaint => true
  | _ => false

/-- The post-processing steps contained in a trace, in order. -/
def postProcessed (es : List Event) : List Event := es.filter isPostProc

/-! ## Base64 (Python `base64.b64encode` / `base64.b64decode`, standard
alphabet with `=` padding) and the `GET /status/{uid}` endpoint. -/

/-- The standard base64 alphabet. -/
def b64Alphabet : List Char :=
  "ABCDEFGHIJKLMNOPQRSTUVWXYZabcdefghijklmnopqrstuvwxyz0123456789+/".toList

/-- The character encoding a 6-bit group. -/
def b64Char (n : Nat) : Char := b64Alphabet.getD n '='

/-- The 6-bit group a character decodes to, if it is in the alphabet. -/
def b64Index (c : Char) : Option Nat := b64Alphabet.indexOf? c

/-- Base64-encode a byte list, three bytes to four characters, padding the
final group with `=`. -/
def encodeChunks : List Nat → List Char
  | a :: b :: c :: rest =>
    b64Char (a / 4) :: b64Char (a % 4 * 16 + b / 16) ::
      b64Char (b % 16 * 4 + c / 64) :: b64Char (c % 64) :: encodeChunks rest
  | [a, b] =>
    [b64Char (a / 4), b64Char (a % 4 * 16 + b / 16), b64Char (b % 16 * 4), '=']
  | [a] => [b64Char (a / 4), b64Char (a % 4 * 16), '=', '=']
  | [] => []

/-- Base64-decode a character list, four characters to three bytes,
honouring `=` padding; `none` on malformed input. -/
def decodeChunks : List Char → Option (List Nat)
  | x :: y :: z :: w :: rest =>
    if z = '=' ∧ w = '=' ∧ rest = [] then
      match b64Index x, b64Index y with
      | some i, some j => some [(i * 4 + j / 16)]
      | _, _ => none
    else if w = '=' ∧ rest = [] then
      match b64Index x, b64Index y, b64Index z with
      | some i, some j, some k => some [(i * 4 + j / 16), (j % 16 * 16 + k / 4)]
      | _, _, _ => none
    else
      match b64Index x, b64Index y, b64Index z, b64Index w with
      | some i, some j, some k, some m =>
        (decodeChunks rest).map
          fun tail => (i * 4 + j / 16) :: (j % 16 * 16 + k / 4) :: ((k % 4 * 64 + m) :: tail)
      | _, _, _, _ => none
  | [] => some []
  | _ => none

/-- `base64.b64encode(bytes).decode()` on a byte list. -/
def b64encode (bytes : List Nat) : String := String.mk (encodeChunks bytes)

/-- `base64.b64decode` on a string. -/
def b64decode (s : String) : Option (List Nat) := decodeChunks s.toList

/-- The filesystem as seen by the status endpoint: path to file bytes. -/
def FS : Type := String → Option (List Nat)

/-- The JSON body and HTTP code returned by `GET /status/{uid}`. -/
structure StatusResponse where
  status_code : Nat
  status : String
  model_base64 : Option String
deriving DecidableEq, Repr

/-- The `GET /status/{uid}` handler (api_server.py lines 492-502): if no
file `SAVE_DIR/{uid}.glb` exists respond `processing`, else respond
`completed` with the base64 of the file's bytes; HTTP 200 either way. -/
def statusEndpoint (fs : FS) (uid : String) : StatusResponse :=
  let save_file_path := SAVE_DIR ++ "/" ++ uid ++ ".glb"
  match fs save_file_path with
  | none => { status_code := 200, status := "processing", model_base64 := none }
  | some bytes =>
    { status_code := 200, status := "completed", model_base64 := some (b64encode bytes) }

/-! ## Concurrency model: bursts of submissions against `model_semaphore`.

`model_semaphore = asyncio.Semaphore(args.limit_model_concurrency)` is
created at api_server.py line 519. The step semantics below gives the
semaphore its usual meaning (`acquire` blocks while no permit is
available); each submission's thread contributes the gate-relevant actions
of its `worker.generate` run, derived from the run's event trace. -/

/-- Gate-relevant primitive actions of one thread. -/
inductive GateAct where
  | acquire
  | release
  | enter
  | leave
deriving DecidableEq, Repr

/-- The gate-relevant actions an event of `ModelWorker.generate`
contributes: an adapter invocation is an `enter`/`leave` pair (the call has
duration); no event of the source performs a semaphore `acquire` or
`release`, because no code path of `api_server.py` ever calls
`model_semaphore.acquire()` or `model_semaphore.release()`. -/
def eventGateActs : Event → List GateAct
  | Event.pipelineCall _ _ => [GateAct.enter, GateAct.leave]
  | _ => []

/-- The gate-relevant action script of one `worker.generate` thread, as
spawned by `POST /send` (line 487) or run by `POST /generate` (line 320). -/
def jobGateActs (w : ModelWorker) (uid : String) (params : Params) : List GateAct :=
  (ModelWorker.generate w uid params).snd.flatMap eventGateActs

/-- Global state of a burst: available permits, threads inside the adapter,
the high-water mark of simultaneous adapter entries, and each thread's
remaining script. -/
structure SysState where
  sem : Nat
  running : Nat
  maxRunning : Nat
  threads : List (List GateAct)
deriving DecidableEq, Repr

/-- Execute the next action of thread `i` (no-op if the thread is done, or
blocked on `acquire` with no permit available). -/
def stepThread (s : SysState) (i : Nat) : SysState :=
  match s.threads.get? i with
  | some (a :: rest) =>
    match a with
    | GateAct.acquire =>
      if 0 < s.sem then
        { s with sem := s.sem - 1, threads := s.threads.set i rest }
      else s
    | GateAct.release =>
      { s with sem := s.sem + 1, threads := s.threads.set i rest }
    | GateAct.enter =>
      { s with
        running := s.running + 1
        maxRunning := max s.maxRunning (s.running + 1)
        threads := s.threads.set i rest }
    | GateAct.leave =>
      { s with running := s.running - 1, threads := s.threads.set i rest }
  | _ => s

/-- Run a schedule (a list of thread indices) from a state. -/
def runSched (s : SysState) (sched : List Nat) : SysState := sched.foldl stepThread s

/-- Initial state of a burst of `n` identical submissions against a gate of
`capacity` permits. -/
def burst (capacity n : Nat) (acts : List GateAct) : SysState :=
  { sem := capacity, running := 0, maxRunning := 0, threads := List.replicate n acts }

/-- Net effect of one thread's actions on the number of available permits
(single-threaded replay, used for the release-on-every-path claim). -/
def semAfter (v : Nat) (as : List GateAct) : Nat :=
  as.foldl
    (fun s a =>
      match a with
      | GateAct.acquire => s - 1
      | GateAct.release => s + 1
      | _ => s) v

/-! ## Helper lemmas -/

/-- No event of a `generate` run maps to a semaphore operation: the source
contains no call to `model_semaphore.acquire()` or
`model_semaphore.release()`. -/
lemma eventGateActs_no_sem (e : Event) :
    GateAct.acquire ∉ eventGateActs e ∧ GateAct.release ∉ eventGateActs e := by
  cases e <;> simp [eventGateActs]

lemma jobGateActs_no_sem (w : ModelWorker) (uid : String) (p : Params) :
    ∀ a ∈ jobGateActs w uid p, a ≠ GateAct.acquire ∧ a ≠ GateAct.release := by
  intro a ha
  unfold jobGateActs at ha
  rw [List.mem_flatMap] at ha
  obtain ⟨e, -, hae⟩ := ha
  constructor
  · intro h
    exact (eventGateActs_no_sem e).1 (h ▸ hae)
  · intro h
    exact (eventGateActs_no_sem e).2 (h ▸ hae)

lemma semAfter_of_no_sem (as : List GateAct)
    (h : ∀ a ∈ as, a ≠ GateAct.acquire ∧ a ≠ GateAct.release) (v : Nat) :
    semAfter v as = v := by
  induction as generalizing v with
  | nil => rfl
  | cons a rest ih =>
    have ha := h a (List.mem_cons_self a rest)
    have hrest : ∀ b ∈ rest, b ≠ GateAct.acquire ∧ b ≠ GateAct.release :=
      fun b hb => h b (List.mem_cons_of_mem a hb)
    cases a with
    | acquire => exact absurd rfl ha.1
    | release => exact absurd rfl ha.2
    | enter => simpa [semAfter] using ih hrest v
    | leave => simpa [semAfter] using ih hrest v

/-! ## Claim theorems -/

/-- C1: the claim that at most `limit_model_concurrency` Job Executor runs
execute simultaneously fails on the code: no code path ever acquires
`model_semaphore`, so a burst of 6 concurrent submissions of a valid
single-image request against the default capacity of 5 reaches 6
simultaneous adapter executions (while the semaphore, never touched, stays
at 5 permits). -/
theorem claim1_concurrency_gate_unenforced :
    jobGateActs (ModelWorker.init false false) "job"
        { emptyParams with image := some "aW1n" } = [GateAct.enter, GateAct.leave] ∧
    (runSched
        (burst limit_model_concurrency_default 6
          (jobGateActs (ModelWorker.init false false) "job"
            { emptyParams with image := some "aW1n" }))
        [0, 1, 2, 3, 4, 5]).maxRunning = 6 ∧
    (runSched
        (burst limit_model_concurrency_default 6
          (jobGateActs (ModelWorker.init false false) "job"
            { emptyParams with image := some "aW1n" }))
        [0, 1, 2, 3, 4, 5]).sem = limit_model_concurrency_default ∧
    limit_model_concurrency_default < 6 := by
  refine ⟨rfl, rfl, rfl, by decide⟩

/-- C2: a `generate` run performs no semaphore operation on any exit path
(the source never calls `model_semaphore.acquire()` or `.release()`), so
every acquire is matched by exactly as many releases (both zero) and gate
availability after any run — including a failing one — equals its pre-run
value. -/
theorem claim2_gate_availability_preserved (w : ModelWorker) (uid : String) (p : Params)
    (v : Nat) :
    (jobGateActs w uid p).count GateAct.acquire = 0 ∧
    (jobGateActs w uid p).count GateAct.release = 0 ∧
    semAfter v (jobGateActs w uid p) = v := by
  refine ⟨List.count_eq_zero.mpr ?_, List.count_eq_zero.mpr ?_, ?_⟩
  · intro h
    exact (jobGateActs_no_sem w uid p _ h).1 rfl
  · intro h
    exact (jobGateActs_no_sem w uid p _ h).2 rfl
  · exact semAfter_of_no_sem _ (jobGateActs_no_sem w uid p) v

/-- C2 witness: at a concrete forced-failure input (texture requested with
no texture pipeline loaded) the gate availability is unchanged. -/
theorem claim2_gate_availability_preserved_witness :
    (jobGateActs (ModelWorker.init false false) "job"
        { emptyParams with image := some "aW1n", texture := some true }).count
        GateAct.acquire = 0 ∧
    (jobGateActs (ModelWorker.init false false) "job"
        { emptyParams with image := some "aW1n", texture := some true }).count
        GateAct.release = 0 ∧
    semAfter 5 (jobGateActs (ModelWorker.init false false) "job"
        { emptyParams with image := some "aW1n", texture := some true }) = 5 :=
  claim2_gate_availability_preserved (ModelWorker.init false false) "job"
    { emptyParams with image := some "aW1n", texture := some true } 5

/-- C3 counterexample: a request whose body holds only `mesh` and
`texture: true` does not reach the texture stage; `generate` raises
`ValueError("No input image or text provided")` during mode selection,
before the `mesh` check, and makes no collaborator call at all. -/
theorem claim3_mesh_only_texture_counterexample :
    ModelWorker.generate (ModelWorker.init true false) "job"
        { emptyParams with mesh := some "bWVzaA==", texture := some true } =
      (Except.error (Err.valueError "No input image or text provided"), []) := rfl

/-- C3 amended: the mesh bypass holds only for requests that also pass mode
selection. With an `image` field alongside `mesh`, generation is skipped
(no adapter call) and the supplied decoded mesh is used as-is: it is the
mesh exported directly, and with `texture: true` (texture pipeline loaded)
it is the mesh handed to the post-processing chain. A body with only
`mesh` and `texture` instead fails with InvalidInput
(see the counterexample). -/
theorem claim3_mesh_bypass_amended (uid s img : String) :
    ModelWorker.generate (ModelWorker.init false false) uid
        { emptyParams with image := some img, mesh := some s } =
      (Except.ok (SAVE_DIR ++ "/" ++ uid ++ "." ++ "glb", uid),
        [Event.rembgCall, Event.exportMesh uid "glb" (Mesh.fromB64 s), Event.emptyCache]) ∧
    ModelWorker.generate (ModelWorker.init true false) uid
        { emptyParams with image := some img, mesh := some s, texture := some true } =
      (Except.ok (SAVE_DIR ++ "/" ++ uid ++ "." ++ "glb", uid),
        [Event.rembgCall, Event.floater, Event.degenerate, Event.faceReduce 40000,
          Event.texPaint,
          Event.exportMesh uid "glb"
            (Mesh.textured
              (Mesh.faceReduced (Mesh.degenRemoved (Mesh.floaterRemoved (Mesh.fromB64 s)))
                40000)
              (Img.rembgd (Img.decoded img))),
          Event.emptyCache]) :=
  ⟨rfl, rfl⟩

/-- C4: the text-only path never reaches the text-to-image step or the
adapter: `generate` reads `self.pipeline_t2i`, but its initialization is
commented out in `__init__` (api_server.py lines 187-190), so the run
raises `AttributeError` immediately, whatever the startup flags were. -/
theorem claim4_text_path_attribute_error (enable_tex enable_multiview : Bool)
    (uid t : String) :
    ModelWorker.generate (ModelWorker.init enable_tex enable_multiview) uid
        { emptyParams with text := some t } =
      (Except.error (Err.attributeError "pipeline_t2i"), []) := rfl

/-- C5: with all generation parameters omitted, a single-image request
reaches the adapter with octree_resolution=128, num_inference_steps=5,
guidance_scale=5.0 (and mc_algo='mc', num_chunks untouched), and a valid
multiview request reaches it with octree_resolution=380,
num_inference_steps=50, num_chunks=20000, guidance_scale=5.0. -/
theorem claim5_mode_specific_defaults (uid img f l b : String) :
    firstPipeArgs (ModelWorker.generate (ModelWorker.init false false) uid
        { emptyParams with image := some img }).snd =
      some { image := ProcImage.single (Img.rembgd (Img.decoded img)), seed := 1234,
             octree_resolution := 128, num_inference_steps := 5, num_chunks := none,
             mc_algo := some "mc", guidance_scale := 5 } ∧
    firstPipeArgs (ModelWorker.generate (ModelWorker.init false true) uid
        { emptyParams with
          multiview := some true
          images := some ⟨some f, some l, some b⟩ }).snd =
      some { image := ProcImage.views (Img.rembgd (Img.decoded f))
               (Img.rembgd (Img.decoded l)) (Img.rembgd (Img.decoded b)), seed := 1234,
             octree_resolution := 380, num_inference_steps := 50,
             num_chunks := some 20000, mc_algo := none, guidance_scale := 5 } :=
  ⟨rfl, rfl⟩

/-- C10: a JSON multiview request (as `/generate` and `/send` hand it to
`worker.generate`) that omits `seed` reaches the adapter seeded with 1234 —
the same default as single-image — while the `/generate-multiview-form`
endpoint injects `seed = 12345` into the dictionary it builds; the two
defaults differ. -/
theorem claim10_json_multiview_seed_default (enable_tex : Bool) (uid f l b : String) :
    (firstPipeArgs (ModelWorker.generate (ModelWorker.init enable_tex true) uid
        { emptyParams with
          multiview := some true
          images := some ⟨some f, some l, some b⟩ }).snd).map PipeArgs.seed =
      some 1234 ∧
    (generate_multiview_form_params f l b).seed = some 12345 ∧
    (1234 : Nat) ≠ 12345 :=
  ⟨rfl, rfl, by decide⟩
/-- C6: a multiview request whose `images` field is absent or misses any of
the front, left or back sub-images fails with InvalidInput (a
`ValueError`), and the Model Pipeline Adapter is never invoked. -/
theorem claim6_multiview_missing_input (w : ModelWorker) (uid : String) (p : Params)
    (hmv : p.multiview.getD false = true)
    (hmiss : p.images = none ∨ ∃ vs, p.images = some vs ∧
      (vs.front = none ∨ vs.left = none ∨ vs.back = none)) :
    isInvalidInput (ModelWorker.generate w uid p).fst = true ∧
    pipelineCalls (ModelWorker.generate w uid p).snd = [] := by
  rcases hmiss with h | ⟨⟨fo, lo, bo⟩, hvs, hview⟩
  · simp [ModelWorker.generate, modeSelection, hmv, h, isInvalidInput, pipelineCalls]
  · cases fo <;> cases lo <;> cases bo <;>
      simp_all [ModelWorker.generate, modeSelection, isInvalidInput, pipelineCalls,
        isPipelineCall]

/-- C6 witness: a multiview request missing the back image is rejected
without an adapter call. -/
theorem claim6_multiview_missing_input_witness :
    isInvalidInput (ModelWorker.generate (ModelWorker.init false true) "job"
        { emptyParams with
          multiview := some true
          images := some ⟨some "f", some "l", none⟩ }).fst = true ∧
    pipelineCalls (ModelWorker.generate (ModelWorker.init false true) "job"
        { emptyParams with
          multiview := some true
          images := some ⟨some "f", some "l", none⟩ }).snd = [] :=
  claim6_multiview_missing_input (ModelWorker.init false true) "job"
    { emptyParams with
      multiview := some true
      images := some ⟨some "f", some "l", none⟩ }
    rfl (Or.inr ⟨⟨some "f", some "l", none⟩, rfl, Or.inr (Or.inr rfl)⟩)

/-- Mode selection only decodes and background-removes images (and, were
the attribute present, calls text-to-image): its trace contains no
post-processing step, no adapter call and no export. -/
lemma modeSelection_events (w : ModelWorker) (p : Params) :
    ∀ e ∈ (modeSelection w p).snd, e = Event.rembgCall ∨ ∃ t, e = Event.t2iCall t := by
  obtain ⟨mv, images, image, text, mesh, seed, octree, steps, chunks, guidance, tex, fc, ty⟩ := p
  obtain ⟨pmv, ptex, pt2i⟩ := w
  cases mv with
  | none =>
    cases image <;> cases text <;> cases pt2i <;>
      simp [modeSelection]
  | some b =>
    cases b with
    | false =>
      cases image <;> cases text <;> cases pt2i <;>
        simp [modeSelection]
    | true =>
      rcases images with _ | ⟨fo, lo, bo⟩
      · simp [modeSelection]
      · cases fo <;> cases lo <;> cases bo <;> cases pmv <;>
          simp [modeSelection]


/-- The mesh-acquisition block emits at most one adapter call and nothing
else. -/
lemma meshSource_events (kind : PipeKind) (pimg : ProcImage) (p : Params) :
    ∀ e ∈ (meshSource kind pimg p).snd, ∃ k a, e = Event.pipelineCall k a := by
  intro e he
  cases hm : p.mesh with
  | some ms => simp [meshSource, hm] at he
  | none =>
    simp [meshSource, hm] at he
    exact ⟨_, _, he⟩

/-- When texturing is requested and the texture pipeline is present,
post-processing succeeds with exactly the four ordered steps. -/
lemma postProcess_tex_ok (w : ModelWorker) (pimg : ProcImage) (p : Params) (mesh0 : Mesh)
    (meshF : Mesh) (es3 : List Event) (htex : p.texture.getD false = true)
    (h : postProcess w pimg p mesh0 = (Except.ok meshF, es3)) :
    es3 = [Event.floater, Event.degenerate, Event.faceReduce (p.face_count.getD 40000),
      Event.texPaint] := by
  cases hw : w.pipeline_tex <;> simp [postProcess, htex, hw] at h
  exact h.2.symm

/-- When texturing is requested but the texture pipeline attribute is
absent, post-processing raises `AttributeError` after the three cleanup
steps. -/
lemma postProcess_no_tex (w : ModelWorker) (pimg : ProcImage) (p : Params) (mesh0 : Mesh)
    (htex : p.texture.getD false = true) (hw : w.pipeline_tex = false) :
    postProcess w pimg p mesh0 =
      (Except.error (Err.attributeError "pipeline_tex"),
        [Event.floater, Event.degenerate, Event.faceReduce (p.face_count.getD 40000)]) := by
  simp [postProcess, htex, hw]

/-- C7: whenever texture post-processing is requested and the run
completes, the post-processing steps in the trace are exactly
floater-removal, degenerate-face-removal, face-count reduction, then
texturing, in that order, none skipped or reordered. -/
theorem claim7_postprocessing_order (w : ModelWorker) (uid : String) (p : Params)
    (r : String × String) (es : List Event)
    (htex : p.texture.getD false = true)
    (hrun : ModelWorker.generate w uid p = (Except.ok r, es)) :
    postProcessed es = [Event.floater, Event.degenerate,
      Event.faceReduce (p.face_count.getD 40000), Event.texPaint] := by
  rw [ModelWorker.generate] at hrun
  rcases hm : modeSelection w p with ⟨mres, es1⟩
  rw [hm] at hrun
  cases mres with
  | error e => simp at hrun
  | ok pk =>
    obtain ⟨pimg, kind⟩ := pk
    rcases hpost : postProcess w pimg p (meshSource kind pimg p).fst with ⟨pres, es3⟩
    simp only [hpost] at hrun
    cases pres with
    | error e => simp at hrun
    | ok meshF =>
      have hes : es1 ++ (meshSource kind pimg p).snd ++ es3 ++
          (exportStep uid p meshF).snd = es := congrArg Prod.snd hrun
      have hes3 := postProcess_tex_ok w pimg p (meshSource kind pimg p).fst meshF es3
        htex hpost
      subst hes3
      rw [← hes, postProcessed, List.filter_append, List.filter_append, List.filter_append]
      have h1 : es1.filter isPostProc = [] := by
        rw [List.filter_eq_nil_iff]
        intro e he
        have := modeSelection_events w p e (by rw [hm]; exact he)
        rcases this with h | ⟨t, h⟩ <;> subst h <;> simp [isPostProc]
      have h2 : (meshSource kind pimg p).snd.filter isPostProc = [] := by
        rw [List.filter_eq_nil_iff]
        intro e he
        obtain ⟨k, a, h⟩ := meshSource_events kind pimg p e he
        subst h
        simp [isPostProc]
      rw [h1, h2]
      simp [exportStep, isPostProc, List.filter]

/-- C7 witness: a single-image run with texturing enabled shows the four
steps in order. -/
theorem claim7_postprocessing_order_witness :
    postProcessed (ModelWorker.generate (ModelWorker.init true false) "job"
        { emptyParams with image := some "aW1n", texture := some true }).snd =
      [Event.floater, Event.degenerate, Event.faceReduce 40000, Event.texPaint] :=
  claim7_postprocessing_order (ModelWorker.init true false) "job"
    { emptyParams with image := some "aW1n", texture := some true }
    (SAVE_DIR ++ "/" ++ "job" ++ "." ++ "glb", "job")
    (ModelWorker.generate (ModelWorker.init true false) "job"
      { emptyParams with image := some "aW1n", texture := some true }).snd
    rfl rfl

/-- C9: with `texture: true` while the texture pipeline was not loaded
(`enable_tex` false, so `self.pipeline_tex` does not exist), `generate`
never succeeds and never reaches the texture-painting step: whatever the
rest of the request, the run raises; and any such run that passes mode
selection and mesh acquisition raises exactly
`AttributeError("pipeline_tex")`, the code-level ConfigurationError. -/
theorem claim9_texture_not_silently_skipped (w : ModelWorker) (uid : String) (p : Params)
    (img ms : String)
    (hw : w.pipeline_tex = false) (htex : p.texture.getD false = true) :
    (∀ r, (ModelWorker.generate w uid p).fst ≠ Except.ok r) ∧
    Event.texPaint ∉ (ModelWorker.generate w uid p).snd ∧
    (ModelWorker.generate w uid
        { p with multiview := some false, image := some img, mesh := some ms }).fst =
      Except.error (Err.attributeError "pipeline_tex") := by
  refine ⟨?_, ?_, ?_⟩
  · intro r hr
    rw [ModelWorker.generate] at hr
    rcases hm : modeSelection w p with ⟨mres, es1⟩
    rw [hm] at hr
    cases mres with
    | error e => simp at hr
    | ok pk =>
      obtain ⟨pimg, kind⟩ := pk
      simp only [postProcess_no_tex w pimg p (meshSource kind pimg p).fst htex hw] at hr
      simp at hr
  · intro hmem
    rw [ModelWorker.generate] at hmem
    rcases hm : modeSelection w p with ⟨mres, es1⟩
    rw [hm] at hmem
    have hes1 : Event.texPaint ∉ es1 := by
      intro h
      rcases modeSelection_events w p Event.texPaint (by rw [hm]; exact h) with
        h' | ⟨t, h'⟩ <;> simp at h'
    cases mres with
    | error e => exact hes1 hmem
    | ok pk =>
      obtain ⟨pimg, kind⟩ := pk
      simp only [postProcess_no_tex w pimg p (meshSource kind pimg p).fst htex hw] at hmem
      simp at hmem
      rcases hmem with h | h
      · exact hes1 h
      · obtain ⟨k, a, h'⟩ := meshSource_events kind pimg p Event.texPaint h
        simp at h'
  · simp [ModelWorker.generate, modeSelection, meshSource, postProcess, htex, hw]

/-- C9 witness: a concrete texture-requesting run on a worker without the
texture pipeline fails, with `AttributeError("pipeline_tex")` on the
mesh-bypass variant. -/
theorem claim9_texture_not_silently_skipped_witness :
    (ModelWorker.generate (ModelWorker.init false false) "job"
        { emptyParams with image := some "aW1n", texture := some true }).fst ≠
      Except.ok ("gradio_cache/job.glb", "job") ∧
    Event.texPaint ∉ (ModelWorker.generate (ModelWorker.init false false) "job"
        { emptyParams with image := some "aW1n", texture := some true }).snd ∧
    (ModelWorker.generate (ModelWorker.init false false) "job"
        { emptyParams with
          multiview := some false
          image := some "aW1n"
          mesh := some "bQ=="
          texture := some true }).fst =
      Except.error (Err.attributeError "pipeline_tex") :=
  ⟨(claim9_texture_not_silently_skipped (ModelWorker.init false false) "job"
      { emptyParams with image := some "aW1n", texture := some true } "aW1n" "bQ=="
      rfl rfl).1 ("gradio_cache/job.glb", "job"),
   (claim9_texture_not_silently_skipped (ModelWorker.init false false) "job"
      { emptyParams with image := some "aW1n", texture := some true } "aW1n" "bQ=="
      rfl rfl).2.1,
   (claim9_texture_not_silently_skipped (ModelWorker.init false false) "job"
      { emptyParams with image := some "aW1n", texture := some true } "aW1n" "bQ=="
      rfl rfl).2.2⟩

/-- Characters of the alphabet decode back to their index. -/
lemma b64Index_b64Char_fin : ∀ n : Fin 64, b64Index (b64Char n.val) = some n.val := by
  decide

lemma b64Index_b64Char (n : Nat) (h : n < 64) : b64Index (b64Char n) = some n :=
  b64Index_b64Char_fin ⟨n, h⟩

/-- No alphabet character is the padding character. -/
lemma b64Char_ne_pad_fin : ∀ n : Fin 64, b64Char n.val ≠ '=' := by
  decide

lemma b64Char_ne_pad (n : Nat) (h : n < 64) : b64Char n ≠ '=' :=
  b64Char_ne_pad_fin ⟨n, h⟩

/-- Decoding inverts encoding on byte lists. -/
lemma decodeChunks_encodeChunks (l : List Nat) (h : ∀ x ∈ l, x < 256) :
    decodeChunks (encodeChunks l) = some l := by
  induction l using encodeChunks.induct with
  | case1 a b c rest ih =>
    have ha : a < 256 := h a (by simp)
    have hb : b < 256 := h b (by simp)
    have hc : c < 256 := h c (by simp)
    have hrest : ∀ x ∈ rest, x < 256 := fun x hx => h x (by simp [hx])
    rw [encodeChunks, decodeChunks]
    rw [if_neg fun hcon => b64Char_ne_pad (b % 16 * 4 + c / 64) (by omega) hcon.1]
    rw [if_neg fun hcon => b64Char_ne_pad (c % 64) (by omega) hcon.1]
    rw [b64Index_b64Char (a / 4) (by omega),
        b64Index_b64Char (a % 4 * 16 + b / 16) (by omega),
        b64Index_b64Char (b % 16 * 4 + c / 64) (by omega),
        b64Index_b64Char (c % 64) (by omega)]
    rw [ih hrest]
    simp only [Option.map_some', Option.some.injEq, List.cons.injEq, and_true, true_and,
      eq_self_iff_true]
    omega
  | case2 a b =>
    have ha : a < 256 := h a (by simp)
    have hb : b < 256 := h b (by simp)
    rw [encodeChunks, decodeChunks]
    rw [if_neg fun hcon => b64Char_ne_pad (b % 16 * 4) (by omega) hcon.1]
    rw [if_pos ⟨rfl, rfl⟩]
    rw [b64Index_b64Char (a / 4) (by omega),
        b64Index_b64Char (a % 4 * 16 + b / 16) (by omega),
        b64Index_b64Char (b % 16 * 4) (by omega)]
    simp only [Option.some.injEq, List.cons.injEq, and_true, true_and, eq_self_iff_true]
    omega
  | case3 a =>
    have ha : a < 256 := h a (by simp)
    rw [encodeChunks, decodeChunks]
    rw [if_pos ⟨rfl, rfl, rfl⟩]
    rw [b64Index_b64Char (a / 4) (by omega),
        b64Index_b64Char (a % 4 * 16) (by omega)]
    simp only [Option.some.injEq, List.cons.injEq, and_true, true_and, eq_self_iff_true]
    omega
  | case4 => rfl

/-- `b64decode` inverts `b64encode` on byte lists. -/
lemma b64decode_b64encode (bytes : List Nat) (h : ∀ x ∈ bytes, x < 256) :
    b64decode (b64encode bytes) = some bytes :=
  decodeChunks_encodeChunks bytes h

/-- C8: for every uid, while no artifact `SAVE_DIR/{uid}.glb` exists the
status endpoint answers `{"status": "processing"}` with HTTP 200; once it
exists it answers `{"status": "completed", "model_base64": ...}` with HTTP
200, and base64-decoding `model_base64` reproduces exactly the artifact's
bytes. -/
theorem claim8_status_roundtrip (fs : FS) (uid : String) :
    (fs (SAVE_DIR ++ "/" ++ uid ++ ".glb") = none →
      statusEndpoint fs uid =
        { status_code := 200, status := "processing", model_base64 := none }) ∧
    ∀ bytes : List Nat, fs (SAVE_DIR ++ "/" ++ uid ++ ".glb") = some bytes →
      (∀ x ∈ bytes, x < 256) →
      statusEndpoint fs uid =
        { status_code := 200, status := "completed",
          model_base64 := some (b64encode bytes) } ∧
      (statusEndpoint fs uid).model_base64.bind b64decode = some bytes := by
  constructor
  · intro h
    simp [statusEndpoint, h]
  · intro bytes hsome hbound
    have h1 : statusEndpoint fs uid =
        { status_code := 200, status := "completed",
          model_base64 := some (b64encode bytes) } := by
      simp [statusEndpoint, hsome]
    refine ⟨h1, ?_⟩
    rw [h1]
    exact b64decode_b64encode bytes hbound

/-- C8 witness: concrete filesystems, one without and one with the
artifact `gradio_cache/job.glb` holding bytes `[0, 255, 17]`. -/
theorem claim8_status_roundtrip_witness :
    statusEndpoint (fun _ => none) "job" =
      { status_code := 200, status := "processing", model_base64 := none } ∧
    statusEndpoint
        (fun s => if s = "gradio_cache/job.glb" then some [0, 255, 17] else none) "job" =
      { status_code := 200, status := "completed",
        model_base64 := some (b64encode [0, 255, 17]) } ∧
    (statusEndpoint
        (fun s => if s = "gradio_cache/job.glb" then some [0, 255, 17] else none)
        "job").model_base64.bind b64decode = some [0, 255, 17] :=
  ⟨(claim8_status_roundtrip (fun _ => none) "job").1 rfl,
   ((claim8_status_roundtrip
        (fun s => if s = "gradio_cache/job.glb" then some [0, 255, 17] else none) "job").2
      [0, 255, 17] (by decide) (by decide)).1,
   ((claim8_status_roundtrip
        (fun s => if s = "gradio_cache/job.glb" then some [0, 255, 17] else none) "job").2
      [0, 255, 17] (by decide) (by decide)).2⟩
